import Mathlib

/-!
# Verification of the task-list CRUD core

Shallow embedding of the repository's core logic:

* `createTaskSchema` / `updateTaskSchema` (src/types/task.types.ts) — zod
  payload validation for create/update, embedded as `createTaskParse` and
  `updateTaskParse` over an untyped payload type.  Zod semantics are kept:
  string checks run in declaration order (`min`, `max`, then the `trim`
  transform), `optional().default(false)` substitutes the default when the
  key is absent, and the `.refine` on the update schema counts the keys of
  the *parsed* object.
* `validateTaskId` (src/middleware/validation.ts) — the `:id` path-parameter
  check: `/^\d+$/` on the raw string, then `parseInt` and a `> 0` test.
* `findAll` / `findById` / `create` / `update` / `deleteTask`
  (src/types/task.types.ts, drizzle controller) — persistence over the
  `tasks` table, embedded as state passing over a `DB` value holding the
  rows in insertion order plus the next serial id.  The database clock is an
  explicit `now : Nat` parameter.
* `errorHandler` / `handleDatabaseError` (src/middleware/errorHandler.ts) —
  error normalisation to a wire-level `{error, message, details?}` body.
-/

deriving instance DecidableEq for Except

namespace Todo

/-- An untyped JSON-ish value, as a request payload field carries it. -/
inductive JValue where
  | str : String → JValue
  | bool : Bool → JValue
  | num : Int → JValue
  | null : JValue
deriving DecidableEq, Repr

/-- A request body for create/update: each recognized key either absent or
bound to an untyped value.  Unknown keys are dropped by the zod object
schemas before any check that looks at keys, so they are not represented. -/
structure Payload where
  title : Option JValue := none
  description : Option JValue := none
  completed : Option JValue := none
deriving DecidableEq, Repr

/-- One `{field, message}` entry of a validation error's `details` array. -/
structure FieldError where
  field : String
  message : String
deriving DecidableEq, Repr

/-- Output of `createTaskSchema.parse`: `completed` has already received its
`.default(false)`, so it is a plain boolean. -/
structure CreateTaskRequest where
  title : String
  description : Option String := none
  completed : Bool := false
deriving DecidableEq, Repr

/-- Output of `updateTaskSchema.parse`: every field optional, only supplied
keys present. -/
structure UpdateTaskRequest where
  title : Option String := none
  description : Option String := none
  completed : Option Bool := none
deriving DecidableEq, Repr

/-- JavaScript `String.prototype.trim`: strip leading and trailing
whitespace (modelled on the character list so it evaluates by `decide`). -/
def jsTrim (s : String) : String :=
  ⟨((s.data.dropWhile Char.isWhitespace).reverse.dropWhile Char.isWhitespace).reverse⟩

/-- The `title` field rule of `createTaskSchema`:
`z.string({message}).min(1,…).max(255,…).trim()`.  Zod runs the checks in
declaration order, so `min`/`max` see the raw string and the `trim`
transform applies afterwards. -/
def titleFieldCreate : Option JValue → Except FieldError String
  | some (JValue.str s) =>
      if s.length < 1 then
        Except.error ⟨"title", "O campo title não pode estar vazio"⟩
      else if s.length > 255 then
        Except.error ⟨"title", "O campo title deve ter no máximo 255 caracteres"⟩
      else
        Except.ok (jsTrim s)
  | some _ => Except.error ⟨"title", "O campo title deve ser uma string"⟩
  | none => Except.error ⟨"title", "O campo title deve ser uma string"⟩

/-- The `description` field rule: `z.string({message}).optional()`. -/
def descriptionField : Option JValue → Except FieldError (Option String)
  | none => Except.ok none
  | some (JValue.str s) => Except.ok (some s)
  | some _ => Except.error ⟨"description", "O campo description deve ser uma string"⟩

/-- The `completed` field rule of `createTaskSchema`:
`z.boolean({message}).optional().default(false)` — absent key becomes
`false` without running the boolean check. -/
def completedFieldCreate : Option JValue → Except FieldError Bool
  | none => Except.ok false
  | some (JValue.bool b) => Except.ok b
  | some _ => Except.error ⟨"completed", "O campo completed deve ser um boolean"⟩

/-- The `completed` field rule of `updateTaskSchema`:
`z.boolean({message}).optional()`. -/
def completedFieldUpdate : Option JValue → Except FieldError (Option Bool)
  | none => Except.ok none
  | some (JValue.bool b) => Except.ok (some b)
  | some _ => Except.error ⟨"completed", "O campo completed deve ser um boolean"⟩

/-- The `title` field rule of `updateTaskSchema`: same checks as on create,
wrapped in `.optional()`. -/
def titleFieldUpdate : Option JValue → Except FieldError (Option String)
  | none => Except.ok none
  | some v =>
      match titleFieldCreate (some v) with
      | Except.ok s => Except.ok (some s)
      | Except.error e => Except.error e

/-- Collects the errors of the per-field results, in field declaration
order, as `ZodError.issues` does for an object schema. -/
def collectErrors (a b c : Option FieldError) : List FieldError :=
  a.toList ++ b.toList ++ c.toList

/-- The error side of an `Except`, if any. -/
def errOf {ε α : Type} : Except ε α → Option ε
  | Except.error e => some e
  | Except.ok _ => none

/-- `createTaskSchema.parse`: validates the three recognized fields,
aggregating one issue per violated field, and on success returns the
canonical create command (title trimmed, completed defaulted). -/
def createTaskParse (p : Payload) : Except (List FieldError) CreateTaskRequest :=
  match titleFieldCreate p.title, descriptionField p.description,
        completedFieldCreate p.completed with
  | Except.ok t, Except.ok d, Except.ok c => Except.ok ⟨t, d, c⟩
  | rt, rd, rc => Except.error (collectErrors (errOf rt) (errOf rd) (errOf rc))

/-- Number of keys of the object produced by `updateTaskSchema`'s base
parse: exactly the recognized keys supplied in the payload. -/
def suppliedCount (p : Payload) : Nat :=
  (if p.title.isSome then 1 else 0)
    + (if p.description.isSome then 1 else 0)
    + (if p.completed.isSome then 1 else 0)

/-- The `.refine` error of `updateTaskSchema` (path `[]`, so `field` is the
empty string after `path.join('.')`). -/
def refineError : FieldError :=
  ⟨"", "Pelo menos um campo deve ser fornecido para atualização"⟩

/-- `updateTaskSchema.parse`: per-field validation as on create but all
optional, then the `.refine` that the parsed object has at least one key. -/
def updateTaskParse (p : Payload) : Except (List FieldError) UpdateTaskRequest :=
  match titleFieldUpdate p.title, descriptionField p.description,
        completedFieldUpdate p.completed with
  | Except.ok t, Except.ok d, Except.ok c =>
      if suppliedCount p > 0 then Except.ok ⟨t, d, c⟩
      else Except.error [refineError]
  | rt, rd, rc => Except.error (collectErrors (errOf rt) (errOf rd) (errOf rc))

/-- The wire-level error body written by the middlewares:
`{error, message, details?}`. -/
structure ErrorBody where
  error : String
  message : String
  details : Option (List FieldError) := none
deriving DecidableEq, Repr

/-- The body `validateTaskId` responds with on a bad `:id`. -/
def invalidIdBody : ErrorBody :=
  ⟨"ValidationError", "ID de tarefa inválido",
    some [⟨"id", "O ID deve ser um número inteiro positivo"⟩]⟩

/-- The regex class `\d`: an ASCII digit (codepoints 48–57). -/
def isAsciiDigit (c : Char) : Bool :=
  48 ≤ c.toNat && c.toNat ≤ 57

/-- `/^\d+$/.test s`: non-empty and every character an ASCII digit. -/
def allDigits (s : String) : Bool :=
  s.data.length > 0 && s.data.all isAsciiDigit

/-- `parseInt(s, 10)` on a string of ASCII digits: the base-10 value. -/
def parseDigits (s : String) : Nat :=
  s.data.foldl (fun acc c => acc * 10 + (c.toNat - 48)) 0

/-- `validateTaskId` (src/middleware/validation.ts): rejects with a 400
`ValidationError` body unless the raw parameter matches `/^\d+$/` and its
parsed value is `> 0`; on success the validated id flows on. -/
def validateTaskId (s : String) : Except ErrorBody Nat :=
  if !allDigits s then
    Except.error invalidIdBody
  else if parseDigits s ≤ 0 then
    Except.error invalidIdBody
  else
    Except.ok (parseDigits s)

/-- The spec's id pattern `^[1-9]\d*$`: a non-zero leading digit
(codepoints 49–57) followed by digits. -/
def specIdPattern (s : String) : Bool :=
  match s.data with
  | [] => false
  | c :: cs => (49 ≤ c.toNat && c.toNat ≤ 57) && cs.all isAsciiDigit

/-- A row of the `tasks` table (src/db/schema.ts): serial primary key,
`title` varchar(255) NOT NULL, `description` nullable text, `completed`
boolean NOT NULL, and the two timestamps (modelled as `Nat` clock values). -/
structure Task where
  id : Nat
  title : String
  description : Option String
  completed : Bool
  createdAt : Nat
  updatedAt : Nat
deriving DecidableEq, Repr

/-- The database state: rows in insertion order plus the next value of the
`id` serial sequence (PostgreSQL serials start at 1). -/
structure DB where
  rows : List Task
  nextId : Nat
deriving DecidableEq, Repr

/-- A freshly created database: no rows, serial at 1. -/
def emptyDB : DB := ⟨[], 1⟩

/-- `findAll`: `db.select().from(tasks)` — every row. -/
def findAll (db : DB) : List Task := db.rows

/-- `findById`: `select … where eq(tasks.id, id) limit 1`, then
`result[0]` or `null`. -/
def findById (db : DB) (id : Nat) : Option Task :=
  db.rows.find? (fun t => t.id == id)

/-- The `data.description || null` coercion in `create`: JavaScript `||`
sends both `undefined` and the empty string to `null`. -/
def descriptionOrNull : Option String → Option String
  | none => none
  | some s => if s = "" then none else some s

/-- `create`: builds the insert row (`description` falsy-coerced to null,
`completed ?? false`), inserts it with a fresh serial id and
`defaultNow()` timestamps, and returns the created row. -/
def create (db : DB) (data : CreateTaskRequest) (now : Nat) : Task × DB :=
  let t : Task :=
    { id := db.nextId
      title := data.title
      description := descriptionOrNull data.description
      completed := data.completed
      createdAt := now
      updatedAt := now }
  (t, ⟨db.rows ++ [t], db.nextId + 1⟩)

/-- The `SET` clause `update` builds: each field only when supplied
(`!== undefined`), plus `updatedAt: new Date()` always. -/
def applyUpdate (t : Task) (d : UpdateTaskRequest) (now : Nat) : Task :=
  { t with
    title := d.title.getD t.title
    description := match d.description with
      | some s => some s
      | none => t.description
    completed := d.completed.getD t.completed
    updatedAt := now }

/-- `update`: first confirms existence via `findById`, returning `null`
without touching the table when absent; otherwise runs
`UPDATE … WHERE id = … RETURNING` and returns `result[0]` (or `null` when
the statement matched no row). -/
def update (db : DB) (id : Nat) (d : UpdateTaskRequest) (now : Nat) :
    Option Task × DB :=
  match findById db id with
  | none => (none, db)
  | some _ =>
      let newRows := db.rows.map (fun t => if t.id == id then applyUpdate t d now else t)
      match newRows.filter (fun t => t.id == id) with
      | [] => (none, ⟨newRows, db.nextId⟩)
      | t :: _ => (some t, ⟨newRows, db.nextId⟩)

/-- `deleteTask`: first confirms existence via `findById`, returning
`false` without touching the table when absent; otherwise runs
`DELETE … WHERE id = … RETURNING` and returns `result.length > 0`. -/
def deleteTask (db : DB) (id : Nat) : Bool × DB :=
  match findById db id with
  | none => (false, db)
  | some _ =>
      let deleted := db.rows.filter (fun t => t.id == id)
      (deleted.length > 0, ⟨db.rows.filter (fun t => !(t.id == id)), db.nextId⟩)

/-- Well-formedness the storage layer maintains: every row's id is below
the serial's next value, and ids are pairwise distinct. -/
def WF (db : DB) : Prop :=
  (∀ t ∈ db.rows, t.id < db.nextId) ∧ (db.rows.map Task.id).Nodup

/-- The `details` payload of a `CustomError`: either a validation
`{field, message}` list or the `{type, code?}` object
`handleDatabaseError` attaches. -/
inductive ErrDetails where
  | fields : List FieldError → ErrDetails
  | info : String → Option String → ErrDetails
deriving DecidableEq, Repr

/-- A `CustomError` (src/middleware/errorHandler.ts): an `Error` with an
optional `statusCode` and optional `details`. -/
structure CustomError where
  message : String
  statusCode : Option Nat := none
  details : Option ErrDetails := none
deriving DecidableEq, Repr

/-- `createError(message, statusCode, details?)`. -/
def createError (message : String) (statusCode : Nat)
    (details : Option ErrDetails := none) : CustomError :=
  { message := message, statusCode := some statusCode, details := details }

/-- The response the error-handler middleware writes: HTTP status plus the
`{error, message, details?}` body. -/
structure ErrorResponse where
  status : Nat
  error : String
  message : String
  details : Option ErrDetails := none
deriving DecidableEq, Repr

/-- `errorHandler`: status from `err.statusCode || 500`; the `error` name
derived from the status (400 → ValidationError, 404 → NotFoundError,
otherwise InternalServerError); `message` from `err.message || default`;
`details` copied whenever the error carries them. -/
def errorHandler (err : CustomError) : ErrorResponse :=
  let statusCode :=
    match err.statusCode with
    | some n => if n = 0 then 500 else n
    | none => 500
  let errorType :=
    if statusCode = 400 then "ValidationError"
    else if statusCode = 404 then "NotFoundError"
    else "InternalServerError"
  { status := statusCode
    error := errorType
    message := if err.message = "" then "Ocorreu um erro ao processar a requisição"
               else err.message
    details := err.details }

/-- A raw error coming out of the database driver: a message and an
optional SQLSTATE code. -/
structure DBError where
  message : String
  code : Option String := none
deriving DecidableEq, Repr

/-- `pre` is an initial segment of `l`. -/
def leadsWith : List Char → List Char → Bool
  | [], _ => true
  | _ :: _, [] => false
  | a :: as, b :: bs => a == b && leadsWith as bs

/-- Substring occurrence over character lists. -/
def hasSub (sub : List Char) : List Char → Bool
  | [] => leadsWith sub []
  | c :: rest => leadsWith sub (c :: rest) || hasSub sub rest

/-- `error.message.includes('connection')`. -/
def mentionsConnection (s : String) : Bool :=
  hasSub "connection".data s.data

/-- `handleDatabaseError`: connection failures → 500, NOT NULL (23502) and
UNIQUE (23505) violations → 400, anything else → 500; every branch attaches
a `details` object. -/
def handleDatabaseError (e : DBError) : CustomError :=
  if mentionsConnection e.message then
    createError "Erro ao conectar com o banco de dados" 500
      (some (ErrDetails.info "database_connection_error" none))
  else if e.code = some "23502" then
    createError "Dados obrigatórios não fornecidos" 400
      (some (ErrDetails.info "constraint_violation" (some "23502")))
  else if e.code = some "23505" then
    createError "Registro duplicado" 400
      (some (ErrDetails.info "constraint_violation" (some "23505")))
  else
    createError "Erro ao processar operação no banco de dados" 500
      (some (ErrDetails.info "database_error" none))

/-- `validateRequest(schema)`: `schema.parse(req.body)` passes the
validated data on; a `ZodError` becomes the 400 body
`{error: 'ValidationError', message: 'Dados de entrada inválidos',
details}`. -/
def validateRequest {α : Type} (parse : Payload → Except (List FieldError) α)
    (p : Payload) : Except ErrorBody α :=
  match parse p with
  | Except.ok v => Except.ok v
  | Except.error es =>
      Except.error ⟨"ValidationError", "Dados de entrada inválidos", some es⟩

/-- `validateCreateTask = validateRequest(createTaskSchema)`. -/
def validateCreateTask : Payload → Except ErrorBody CreateTaskRequest :=
  validateRequest createTaskParse

/-- `validateUpdateTask = validateRequest(updateTaskSchema)`. -/
def validateUpdateTask : Payload → Except ErrorBody UpdateTaskRequest :=
  validateRequest updateTaskParse

/-- The per-field acceptance rule for a supplied-or-absent `title`, read off
`updateTaskSchema`: absent is fine, a string passes iff its raw length is
1–255, anything else fails. -/
def titleOK : Option JValue → Bool
  | none => true
  | some (JValue.str s) => decide (1 ≤ s.length) && decide (s.length ≤ 255)
  | some _ => false

/-- The per-field acceptance rule for `description`: absent or a string. -/
def descriptionOK : Option JValue → Bool
  | none => true
  | some (JValue.str _) => true
  | some _ => false

/-- The per-field acceptance rule for `completed`: absent or a boolean. -/
def completedOK : Option JValue → Bool
  | none => true
  | some (JValue.bool _) => true
  | some _ => false

/-- The `title` entry of a successful update parse: the supplied string,
trimmed; absent when not supplied. -/
def expectedTitle : Option JValue → Option String
  | some (JValue.str s) => some (jsTrim s)
  | _ => none

/-- The `description` entry of a successful update parse. -/
def expectedDescription : Option JValue → Option String
  | some (JValue.str s) => some s
  | _ => none

/-- The `completed` entry of a successful update parse. -/
def expectedCompleted : Option JValue → Option Bool
  | some (JValue.bool b) => some b
  | _ => none

/-- A sequence of create calls, each with its clock value, threading the
database state and collecting the returned tasks in call order. -/
def insertMany : List (CreateTaskRequest × Nat) → DB → List Task × DB
  | [], db => ([], db)
  | (c, now) :: rest, db =>
      let r := create db c now
      let rr := insertMany rest r.2
      (r.1 :: rr.1, rr.2)

/-- A one-row database used for concrete scenarios: the task "Buy milk"
with id 1. -/
def sampleDB : DB :=
  ⟨[⟨1, "Buy milk", none, false, 0, 0⟩], 2⟩

/-! ## Helper lemmas -/

/-- Folding digit values onto an accumulator never decreases it. -/
theorem foldDigits_ge (cs : List Char) :
    ∀ acc : Nat, acc ≤ cs.foldl (fun a c => a * 10 + (c.toNat - 48)) acc := by
  induction cs with
  | nil => intro acc; exact Nat.le_refl acc
  | cons c cs ih =>
      intro acc
      refine Nat.le_trans ?_ (ih (acc * 10 + (c.toNat - 48)))
      have : acc ≤ acc * 10 := by omega
      omega

/-- A string matching the spec's `^[1-9]\d*$` also matches the source's
`/^\d+$/` and parses to a positive value. -/
theorem specIdPattern_accepted (s : String) (h : specIdPattern s = true) :
    allDigits s = true ∧ 0 < parseDigits s := by
  unfold specIdPattern at h
  unfold allDigits parseDigits
  cases hs : s.data with
  | nil => rw [hs] at h; exact absurd h (by simp)
  | cons c cs =>
      rw [hs] at h
      replace h : (decide (49 ≤ c.toNat) && decide (c.toNat ≤ 57)
          && cs.all isAsciiDigit) = true := h
      simp only [Bool.and_eq_true, decide_eq_true_eq] at h
      obtain ⟨⟨h1, h2⟩, h3⟩ := h
      have hc : isAsciiDigit c = true := by
        unfold isAsciiDigit
        simp only [Bool.and_eq_true, decide_eq_true_eq]
        omega
      refine ⟨?_, ?_⟩
      · simp only [List.length_cons, List.all_cons, hc, h3, Bool.and_eq_true,
          decide_eq_true_eq, Bool.true_and, and_true]
        omega
      · have hge := foldDigits_ge cs (0 * 10 + (c.toNat - 48))
        simp only [List.foldl_cons]
        omega

/-- An error coming out of `validateRequest` is always labelled
`ValidationError`. -/
theorem validateRequest_error_name {α : Type}
    (parse : Payload → Except (List FieldError) α) (p : Payload) (e : ErrorBody)
    (h : validateRequest parse p = Except.error e) : e.error = "ValidationError" := by
  unfold validateRequest at h
  cases hp : parse p with
  | ok v => rw [hp] at h; exact absurd h (by simp)
  | error es => rw [hp] at h; cases h; rfl

/-- `find?` returns the head of `filter`. -/
theorem find?_as_filter_head {α : Type} (p : α → Bool) (l : List α) :
    l.find? p = (l.filter p).head? := by
  induction l with
  | nil => rfl
  | cons a l ih =>
      cases hp : p a
      · rw [List.find?_cons_of_neg _ (by simp [hp]),
          List.filter_cons_of_neg (by simp [hp]), ih]
      · rw [List.find?_cons_of_pos _ hp, List.filter_cons_of_pos hp]
        rfl

/-- `find?` skips a block in which nothing matches. -/
theorem find?_append_of_none {α : Type} (p : α → Bool) (l₁ l₂ : List α)
    (h : l₁.find? p = none) : (l₁ ++ l₂).find? p = l₂.find? p := by
  rw [List.find?_append, h, Option.none_or]

/-- Filtering commutes with a map that leaves the predicate unchanged. -/
theorem filter_map_pres {α : Type} (g : α → α) (p : α → Bool)
    (hg : ∀ x, p (g x) = p x) (l : List α) :
    (l.map g).filter p = (l.filter p).map g := by
  induction l with
  | nil => rfl
  | cons a l ih =>
      cases hp : p a
      · simp [List.filter, hg a, hp, ih]
      · simp [List.filter, hg a, hp, ih]

/-- The empty database is well formed. -/
theorem WF_emptyDB : WF emptyDB := by
  constructor
  · intro t ht; cases ht
  · exact List.nodup_nil

/-- `create` keeps the database well formed. -/
theorem create_WF (db : DB) (data : CreateTaskRequest) (now : Nat)
    (h : WF db) : WF (create db data now).2 := by
  obtain ⟨hlt, hnd⟩ := h
  constructor
  · intro t ht
    rcases List.mem_append.mp ht with hm | hm
    · exact Nat.lt_succ_of_lt (hlt t hm)
    · rcases List.mem_singleton.mp hm with rfl
      show db.nextId < db.nextId + 1
      omega
  · show ((db.rows ++ [_]).map Task.id).Nodup
    rw [List.map_append, List.nodup_append]
    refine ⟨hnd, List.nodup_singleton _, ?_⟩
    intro a ha hb
    rcases List.mem_map.mp ha with ⟨t, ht, rfl⟩
    have h1 : t.id < db.nextId := hlt t ht
    simp only [List.map_cons, List.map_nil, List.mem_singleton] at hb
    show False
    rw [hb] at h1
    exact Nat.lt_irrefl _ h1

/-- The rows after a sequence of creates are the old rows followed by the
returned tasks, in call order. -/
theorem insertMany_rows (cmds : List (CreateTaskRequest × Nat)) :
    ∀ db : DB, (insertMany cmds db).2.rows = db.rows ++ (insertMany cmds db).1 := by
  induction cmds with
  | nil => intro db; simp [insertMany]
  | cons pr rest ih =>
      intro db
      rcases pr with ⟨c, now⟩
      simp only [insertMany]
      rw [ih (create db c now).2]
      show (create db c now).2.rows ++ _ = db.rows ++ _
      rw [show (create db c now).2.rows = db.rows ++ [(create db c now).1] from rfl]
      simp

/-- A sequence of N creates returns N tasks. -/
theorem insertMany_length (cmds : List (CreateTaskRequest × Nat)) :
    ∀ db : DB, (insertMany cmds db).1.length = cmds.length := by
  induction cmds with
  | nil => intro db; rfl
  | cons pr rest ih =>
      intro db
      rcases pr with ⟨c, now⟩
      simp only [insertMany, List.length_cons]
      rw [ih (create db c now).2]

/-- A sequence of creates keeps the database well formed. -/
theorem insertMany_WF (cmds : List (CreateTaskRequest × Nat)) :
    ∀ db : DB, WF db → WF (insertMany cmds db).2 := by
  induction cmds with
  | nil => intro db h; exact h
  | cons pr rest ih =>
      intro db h
      rcases pr with ⟨c, now⟩
      simp only [insertMany]
      exact ih (create db c now).2 (create_WF db c now h)

/-- `completed` of a successful create parse comes straight from the
`completed` field rule. -/
theorem createTaskParse_completed (p : Payload) (r : CreateTaskRequest)
    (h : createTaskParse p = Except.ok r) :
    completedFieldCreate p.completed = Except.ok r.completed := by
  unfold createTaskParse at h
  cases ht : titleFieldCreate p.title <;> rw [ht] at h <;>
    cases hd : descriptionField p.description <;> rw [hd] at h <;>
      cases hc : completedFieldCreate p.completed <;> rw [hc] at h
  all_goals simp at h
  subst h
  rfl

/-- `validateRequest` passes a successful parse through. -/
theorem validateRequest_ok_of {α : Type}
    (parse : Payload → Except (List FieldError) α) (p : Payload) (v : α)
    (h : parse p = Except.ok v) : validateRequest parse p = Except.ok v := by
  unfold validateRequest
  rw [h]

/-- A success out of `validateRequest` came from a successful parse. -/
theorem validateRequest_ok_inv {α : Type}
    (parse : Payload → Except (List FieldError) α) (p : Payload) (v : α)
    (h : validateRequest parse p = Except.ok v) : parse p = Except.ok v := by
  unfold validateRequest at h
  cases hp : parse p with
  | ok w => rw [hp] at h; cases h; rfl
  | error es => rw [hp] at h; exact absurd h (by simp)

/-- Case split for the update `title` rule: either the field is acceptable
and parses to its expected value, or it is unacceptable and errors. -/
theorem titleFieldUpdate_cases (v : Option JValue) :
    (titleOK v = true ∧ titleFieldUpdate v = Except.ok (expectedTitle v))
    ∨ (titleOK v = false ∧ ∃ e, titleFieldUpdate v = Except.error e) := by
  rcases v with _ | jv
  · exact Or.inl ⟨rfl, rfl⟩
  · rcases jv with s | b | n | _
    · by_cases h1 : s.length < 1
      · refine Or.inr ⟨?_, ⟨⟨"title", "O campo title não pode estar vazio"⟩, ?_⟩⟩
        · show (decide (1 ≤ s.length) && decide (s.length ≤ 255)) = false
          rw [decide_eq_false (by omega : ¬ 1 ≤ s.length)]
          rfl
        · simp only [titleFieldUpdate, titleFieldCreate]
          rw [if_pos h1]
      · by_cases h2 : s.length > 255
        · refine Or.inr
            ⟨?_, ⟨⟨"title", "O campo title deve ter no máximo 255 caracteres"⟩, ?_⟩⟩
          · show (decide (1 ≤ s.length) && decide (s.length ≤ 255)) = false
            rw [decide_eq_false (by omega : ¬ s.length ≤ 255)]
            rw [Bool.and_false]
          · simp only [titleFieldUpdate, titleFieldCreate]
            rw [if_neg h1, if_pos h2]
        · refine Or.inl ⟨?_, ?_⟩
          · show (decide (1 ≤ s.length) && decide (s.length ≤ 255)) = true
            rw [decide_eq_true (by omega : 1 ≤ s.length),
              decide_eq_true (by omega : s.length ≤ 255)]
            rfl
          · show titleFieldUpdate (some (JValue.str s)) = Except.ok (some (jsTrim s))
            simp only [titleFieldUpdate, titleFieldCreate]
            rw [if_neg h1, if_neg h2]
    · exact Or.inr ⟨rfl, ⟨⟨"title", "O campo title deve ser uma string"⟩, rfl⟩⟩
    · exact Or.inr ⟨rfl, ⟨⟨"title", "O campo title deve ser uma string"⟩, rfl⟩⟩
    · exact Or.inr ⟨rfl, ⟨⟨"title", "O campo title deve ser uma string"⟩, rfl⟩⟩

/-- Case split for the `description` rule. -/
theorem descriptionField_cases (v : Option JValue) :
    (descriptionOK v = true ∧ descriptionField v = Except.ok (expectedDescription v))
    ∨ (descriptionOK v = false ∧ ∃ e, descriptionField v = Except.error e) := by
  rcases v with _ | jv
  · exact Or.inl ⟨rfl, rfl⟩
  · rcases jv with s | b | n | _
    · exact Or.inl ⟨rfl, rfl⟩
    · exact Or.inr
        ⟨rfl, ⟨⟨"description", "O campo description deve ser uma string"⟩, rfl⟩⟩
    · exact Or.inr
        ⟨rfl, ⟨⟨"description", "O campo description deve ser uma string"⟩, rfl⟩⟩
    · exact Or.inr
        ⟨rfl, ⟨⟨"description", "O campo description deve ser uma string"⟩, rfl⟩⟩

/-- Case split for the update `completed` rule. -/
theorem completedFieldUpdate_cases (v : Option JValue) :
    (completedOK v = true ∧ completedFieldUpdate v = Except.ok (expectedCompleted v))
    ∨ (completedOK v = false ∧ ∃ e, completedFieldUpdate v = Except.error e) := by
  rcases v with _ | jv
  · exact Or.inl ⟨rfl, rfl⟩
  · rcases jv with s | b | n | _
    · exact Or.inr
        ⟨rfl, ⟨⟨"completed", "O campo completed deve ser um boolean"⟩, rfl⟩⟩
    · exact Or.inl ⟨rfl, rfl⟩
    · exact Or.inr
        ⟨rfl, ⟨⟨"completed", "O campo completed deve ser um boolean"⟩, rfl⟩⟩
    · exact Or.inr
        ⟨rfl, ⟨⟨"completed", "O campo completed deve ser um boolean"⟩, rfl⟩⟩

/-- When the update parse errors, the acceptance characterisation and the
success-shape property hold vacuously. -/
theorem validateUpdate_error_case (p : Payload) (es : List FieldError)
    (hparse : updateTaskParse p = Except.error es)
    (hbad : ¬(0 < suppliedCount p ∧ titleOK p.title = true
      ∧ descriptionOK p.description = true ∧ completedOK p.completed = true)) :
    ((∃ r, validateUpdateTask p = Except.ok r) ↔
      (0 < suppliedCount p ∧ titleOK p.title = true
        ∧ descriptionOK p.description = true ∧ completedOK p.completed = true))
    ∧ (∀ r, validateUpdateTask p = Except.ok r →
        r = ⟨expectedTitle p.title, expectedDescription p.description,
             expectedCompleted p.completed⟩) := by
  constructor
  · apply iff_of_false
    · rintro ⟨r, hr⟩
      have h2 := validateRequest_ok_inv _ p r hr
      rw [hparse] at h2
      exact absurd h2 (by simp)
    · exact hbad
  · intro r hr
    have h2 := validateRequest_ok_inv _ p r hr
    rw [hparse] at h2
    exact absurd h2 (by simp)

/-! ## Claims -/

set_option maxRecDepth 8000 in
/-- C1: the spec (and the schema's own documentation) require trimming to
happen before the length/emptiness checks, so that a whitespace-only title
is rejected and a 256-character raw title trimming to 255 characters is
accepted.  The code chains `.min(1).max(255).trim()`, running the checks on
the raw string: a title of three spaces is *accepted* and parses to the
empty title, and a leading-space title of raw length 256 whose trimmed
length is 255 is *rejected* with the length message. -/
theorem createTask_trim_after_length_checks :
    validateCreateTask ⟨some (JValue.str "   "), none, none⟩
      = Except.ok ⟨"", none, false⟩
    ∧ validateCreateTask
        ⟨some (JValue.str (String.mk (' ' :: List.replicate 255 'a'))), none, none⟩
      = Except.error ⟨"ValidationError", "Dados de entrada inválidos",
          some [⟨"title", "O campo title deve ter no máximo 255 caracteres"⟩]⟩ := by
  constructor
  · decide
  · decide

/-- C2 counterexample: `"007"` does not match the spec's `^[1-9]\d*$`, yet
`validateTaskId` accepts it and returns `7` — the claim that every
non-matching string fails is false. -/
theorem validateTaskId_leading_zero_counterexample :
    specIdPattern "007" = false ∧ validateTaskId "007" = Except.ok 7 := by
  constructor
  · decide
  · decide

/-- C2 (amended): `validateTaskId` fails with the field-`id`
`ValidationError` body exactly on strings that fail `/^\d+$/` or parse to
`0`; every string matching `/^\d+$/` with positive value — including every
string matching the spec's `^[1-9]\d*$`, but also leading-zero forms — is
accepted with its parsed value.  The concrete scenarios hold: `"12.5"`,
`"-1"` and `"0"` fail, `"7"` returns `7`. -/
theorem validateTaskId_spec (s : String) :
    (allDigits s = false → validateTaskId s = Except.error invalidIdBody)
    ∧ (parseDigits s = 0 → validateTaskId s = Except.error invalidIdBody)
    ∧ (allDigits s = true → 0 < parseDigits s →
        validateTaskId s = Except.ok (parseDigits s))
    ∧ (specIdPattern s = true → validateTaskId s = Except.ok (parseDigits s))
    ∧ validateTaskId "12.5" = Except.error invalidIdBody
    ∧ validateTaskId "-1" = Except.error invalidIdBody
    ∧ validateTaskId "0" = Except.error invalidIdBody
    ∧ validateTaskId "7" = Except.ok 7 := by
  refine ⟨?_, ?_, ?_, ?_, by decide, by decide, by decide, by decide⟩
  · intro h; unfold validateTaskId; rw [h]; rfl
  · intro h
    unfold validateTaskId
    rcases hd : allDigits s with _ | _
    · rfl
    · simp [h]
  · intro hd hpos
    unfold validateTaskId
    rw [hd, if_neg (by decide), if_neg (by omega)]
  · intro h
    obtain ⟨hd, hpos⟩ := specIdPattern_accepted s h
    unfold validateTaskId
    rw [hd, if_neg (by decide), if_neg (by omega)]

/-- C3 counterexample: a database connection failure is normalised to a 500
response that *does* carry a `details` object — refuting "details is
populated only for ValidationError, never for 404 or 500 responses". -/
theorem errorHandler_details_counterexample :
    (errorHandler (handleDatabaseError ⟨"database connection refused", none⟩)).status
        = 500
    ∧ (errorHandler (handleDatabaseError ⟨"database connection refused", none⟩)).details
        = some (ErrDetails.info "database_connection_error" none) := by
  constructor
  · decide
  · decide

/-- C3 (amended): the status is the one fixed by the failure kind
(validation 400, not-found 404, constraint 400, storage/unknown 500), the
body's `error` name is derived from the status (400 → ValidationError,
404 → NotFoundError, otherwise InternalServerError — so constraint errors
are labelled ValidationError), and `details` is copied to the body whenever
the error carries details: for every validation error *and* for every error
produced by `handleDatabaseError`, including its 500 responses. -/
theorem errorHandler_spec (err : CustomError) (e : DBError) :
    ((errorHandler err).details = err.details)
    ∧ (err.statusCode = some 400 → (errorHandler err).status = 400
        ∧ (errorHandler err).error = "ValidationError")
    ∧ (err.statusCode = some 404 → (errorHandler err).status = 404
        ∧ (errorHandler err).error = "NotFoundError")
    ∧ (err.statusCode = none → (errorHandler err).status = 500
        ∧ (errorHandler err).error = "InternalServerError")
    ∧ (err.statusCode = some 500 → (errorHandler err).status = 500
        ∧ (errorHandler err).error = "InternalServerError")
    ∧ (mentionsConnection e.message = true →
        errorHandler (handleDatabaseError e)
          = ⟨500, "InternalServerError", "Erro ao conectar com o banco de dados",
              some (ErrDetails.info "database_connection_error" none)⟩)
    ∧ (mentionsConnection e.message = false → e.code = some "23502" →
        errorHandler (handleDatabaseError e)
          = ⟨400, "ValidationError", "Dados obrigatórios não fornecidos",
              some (ErrDetails.info "constraint_violation" (some "23502"))⟩)
    ∧ (mentionsConnection e.message = false → e.code = some "23505" →
        errorHandler (handleDatabaseError e)
          = ⟨400, "ValidationError", "Registro duplicado",
              some (ErrDetails.info "constraint_violation" (some "23505"))⟩)
    ∧ (mentionsConnection e.message = false → e.code ≠ some "23502" →
        e.code ≠ some "23505" →
        errorHandler (handleDatabaseError e)
          = ⟨500, "InternalServerError", "Erro ao processar operação no banco de dados",
              some (ErrDetails.info "database_error" none)⟩) := by
  refine ⟨rfl, ?_, ?_, ?_, ?_, ?_, ?_, ?_, ?_⟩
  · intro h; unfold errorHandler; rw [h]; exact ⟨rfl, rfl⟩
  · intro h; unfold errorHandler; rw [h]; exact ⟨rfl, rfl⟩
  · intro h; unfold errorHandler; rw [h]; exact ⟨rfl, rfl⟩
  · intro h; unfold errorHandler; rw [h]; exact ⟨rfl, rfl⟩
  · intro h; unfold handleDatabaseError; rw [h]; simp; unfold errorHandler createError; rfl
  · intro h hc; unfold handleDatabaseError; rw [h, hc]; simp; unfold errorHandler createError; rfl
  · intro h hc
    unfold handleDatabaseError
    rw [h, hc]
    simp
    unfold errorHandler createError
    rfl
  · intro h h2 h5
    unfold handleDatabaseError
    rw [h]
    simp [h2, h5]
    unfold errorHandler createError
    rfl

/-- C4: for an existing task and any partial update command, `update`
returns the task with `id` and `createdAt` unchanged, `updatedAt` refreshed
to the (strictly later) current clock — so `updatedAt ≥ createdAt` is
preserved — and each data field changed exactly when the command supplies
it; `updatedAt` is refreshed even when the supplied values equal the
current ones, since the `SET` clause always carries `updatedAt`. -/
theorem update_preserves_identity (db : DB) (id : Nat) (t : Task)
    (d : UpdateTaskRequest) (now : Nat)
    (hfind : findById db id = some t) (hclock : t.updatedAt < now) :
    ∃ t', (update db id d now).1 = some t'
      ∧ t'.id = t.id
      ∧ t'.createdAt = t.createdAt
      ∧ t'.updatedAt = now
      ∧ t.updatedAt < t'.updatedAt
      ∧ (t.createdAt ≤ t.updatedAt → t'.createdAt ≤ t'.updatedAt)
      ∧ t'.title = d.title.getD t.title
      ∧ t'.description = (match d.description with
          | some s => some s
          | none => t.description)
      ∧ t'.completed = d.completed.getD t.completed := by
  refine ⟨applyUpdate t d now, ?_, rfl, rfl, rfl, hclock, ?_, rfl, rfl, rfl⟩
  · have hfind' : db.rows.find? (fun x => x.id == id) = some t := hfind
    have hpt0 := List.find?_some hfind'
    have hpt : (t.id == id) = true := hpt0
    have hg : ∀ x : Task,
        ((if x.id == id then applyUpdate x d now else x).id == id) = (x.id == id) := by
      intro x
      cases hx : x.id == id
      · rw [if_neg (by simp [hx]), hx]
      · rw [if_pos (by simp [hx])]
        show (x.id == id) = true
        exact hx
    have hcomm := filter_map_pres
      (fun x => if x.id == id then applyUpdate x d now else x)
      (fun x => x.id == id) hg db.rows
    have hhead : (db.rows.filter (fun x => x.id == id)).head? = some t := by
      rw [← find?_as_filter_head]
      exact hfind
    cases hfl : db.rows.filter (fun x => x.id == id) with
    | nil => rw [hfl] at hhead; exact absurd hhead (by simp)
    | cons a rest =>
        rw [hfl] at hhead
        have ha : a = t := by
          simpa using hhead
        subst ha
        have hkey : (db.rows.map
              (fun x => if x.id == id then applyUpdate x d now else x)).filter
                (fun x => x.id == id)
            = applyUpdate a d now ::
                (rest.map (fun x => if x.id == id then applyUpdate x d now else x)) := by
          rw [hcomm, hfl, List.map_cons, if_pos hpt]
        unfold update
        rw [hfind]
        simp only [hkey]
  · intro h
    show t.createdAt ≤ now
    omega

/-- C4 witness: updating the "Buy milk" task with `{completed: true}` at
clock 5 keeps id and createdAt, sets completed, and refreshes updatedAt. -/
theorem update_preserves_identity_witness :
    ∃ t', (update sampleDB 1 ⟨none, none, some true⟩ 5).1 = some t'
      ∧ t'.id = 1
      ∧ t'.createdAt = 0
      ∧ t'.updatedAt = 5
      ∧ 0 < t'.updatedAt
      ∧ ((0 : Nat) ≤ 0 → t'.createdAt ≤ t'.updatedAt)
      ∧ t'.title = "Buy milk"
      ∧ t'.description = none
      ∧ t'.completed = true :=
  update_preserves_identity sampleDB 1 ⟨1, "Buy milk", none, false, 0, 0⟩
    ⟨none, none, some true⟩ 5 (by decide) (by decide)

/-- C5: absence is a first-class result: when no row matches the id,
`findById` returns `none` (its result type), `update` returns `none` and
leaves the database untouched, and `deleteTask` returns `false` and leaves
the database untouched; concretely, `remove(999999)` on the sample store
returns `false` without changing it. -/
theorem absence_first_class (db : DB) (id : Nat) (d : UpdateTaskRequest)
    (now : Nat) :
    (findById db id = none → update db id d now = (none, db))
    ∧ (findById db id = none → deleteTask db id = (false, db))
    ∧ findById sampleDB 999999 = none
    ∧ deleteTask sampleDB 999999 = (false, sampleDB) := by
  refine ⟨?_, ?_, by decide, by decide⟩
  · intro h
    unfold update
    rw [h]
  · intro h
    unfold deleteTask
    rw [h]

/-- C7: on a well-formed store, `insert` followed by `getById` on the new
task's id returns exactly the inserted task. -/
theorem insert_getById_roundtrip (db : DB) (data : CreateTaskRequest)
    (now : Nat) (h : WF db) :
    findById (create db data now).2 (create db data now).1.id
      = some (create db data now).1 := by
  obtain ⟨hlt, -⟩ := h
  show (db.rows ++ [(create db data now).1]).find?
      (fun x => x.id == (create db data now).1.id) = some (create db data now).1
  have hnone : db.rows.find? (fun x => x.id == (create db data now).1.id) = none := by
    rw [List.find?_eq_none]
    intro x hx
    have hxlt : x.id < db.nextId := hlt x hx
    simp only [beq_iff_eq]
    show ¬ x.id = db.nextId
    omega
  rw [find?_append_of_none _ _ _ hnone]
  rw [List.find?_cons_of_pos _ (by simp)]

/-- C7 witness: creating "Buy milk" in the empty store and reading the new
id back returns the created task. -/
theorem insert_getById_roundtrip_witness :
    findById (create emptyDB ⟨"Buy milk", none, false⟩ 3).2
        (create emptyDB ⟨"Buy milk", none, false⟩ 3).1.id
      = some (create emptyDB ⟨"Buy milk", none, false⟩ 3).1 :=
  insert_getById_roundtrip emptyDB ⟨"Buy milk", none, false⟩ 3 WF_emptyDB

/-- C8: after any sequence of N creates starting from the empty store,
`findAll` returns exactly the N created tasks, in insertion order and
without pagination, and their ids are pairwise distinct (so the returned
ids are exactly the set of inserted ids). -/
theorem list_completeness (cmds : List (CreateTaskRequest × Nat)) :
    findAll (insertMany cmds emptyDB).2 = (insertMany cmds emptyDB).1
    ∧ (insertMany cmds emptyDB).1.length = cmds.length
    ∧ ((insertMany cmds emptyDB).1.map Task.id).Nodup := by
  have hr := insertMany_rows cmds emptyDB
  refine ⟨?_, insertMany_length cmds emptyDB, ?_⟩
  · show (insertMany cmds emptyDB).2.rows = _
    rw [hr]
    rfl
  · obtain ⟨-, hnd⟩ := insertMany_WF cmds emptyDB WF_emptyDB
    rw [hr] at hnd
    simpa using hnd

/-- C9: the created task takes `description: null` when none is supplied,
`completed` straight from the command (and the validation layer defaults an
omitted `completed` to `false`), a positive id whenever the serial is
positive, and `createdAt = updatedAt`; concretely, inserting
`{title: "Buy milk", completed: false}` into the empty store at clock 3
yields task `⟨1, "Buy milk", null, false, 3, 3⟩`. -/
theorem insert_defaults (db : DB) (data : CreateTaskRequest) (now : Nat) :
    (1 ≤ db.nextId → 1 ≤ (create db data now).1.id)
    ∧ (create db data now).1.createdAt = (create db data now).1.updatedAt
    ∧ (data.description = none → (create db data now).1.description = none)
    ∧ (create db data now).1.completed = data.completed
    ∧ (∀ p r, createTaskParse p = Except.ok r → p.completed = none →
        r.completed = false)
    ∧ (create emptyDB ⟨"Buy milk", none, false⟩ 3).1
        = ⟨1, "Buy milk", none, false, 3, 3⟩ := by
  refine ⟨fun h => h, rfl, ?_, rfl, ?_, by decide⟩
  · intro h
    show descriptionOrNull data.description = none
    rw [h]
    rfl
  · intro p r h hc
    have hcf := createTaskParse_completed p r h
    rw [hc] at hcf
    have : Except.ok (ε := FieldError) false = Except.ok r.completed := hcf
    exact (Except.ok.inj this).symm

/-- C6: `validateUpdateTask` fails — always with a `ValidationError` body —
exactly when no recognized field is supplied or some supplied field breaks
its per-field type/length rule; on success the result carries exactly the
supplied fields, with the title trimmed. -/
theorem validateUpdate_spec (p : Payload) :
    (∀ e, validateUpdateTask p = Except.error e → e.error = "ValidationError")
    ∧ ((∃ r, validateUpdateTask p = Except.ok r) ↔
        (0 < suppliedCount p ∧ titleOK p.title = true
          ∧ descriptionOK p.description = true ∧ completedOK p.completed = true))
    ∧ (∀ r, validateUpdateTask p = Except.ok r →
        r = ⟨expectedTitle p.title, expectedDescription p.description,
             expectedCompleted p.completed⟩) := by
  refine ⟨fun e h => validateRequest_error_name _ p e h, ?_⟩
  rcases titleFieldUpdate_cases p.title with ⟨ht1, ht2⟩ | ⟨ht1, et, ht2⟩
  · rcases descriptionField_cases p.description with ⟨hd1, hd2⟩ | ⟨hd1, ed, hd2⟩
    · rcases completedFieldUpdate_cases p.completed with ⟨hc1, hc2⟩ | ⟨hc1, ec, hc2⟩
      · by_cases hsc : 0 < suppliedCount p
        · have hparse : updateTaskParse p
              = Except.ok ⟨expectedTitle p.title, expectedDescription p.description,
                  expectedCompleted p.completed⟩ := by
            unfold updateTaskParse
            rw [ht2, hd2, hc2]
            simp [hsc]
          constructor
          · apply iff_of_true
            · exact ⟨_, validateRequest_ok_of _ p _ hparse⟩
            · exact ⟨hsc, ht1, hd1, hc1⟩
          · intro r hr
            have h2 := validateRequest_ok_inv _ p r hr
            rw [hparse] at h2
            exact (Except.ok.inj h2).symm
        · have hparse : updateTaskParse p = Except.error [refineError] := by
            unfold updateTaskParse
            rw [ht2, hd2, hc2]
            simp [hsc]
          exact validateUpdate_error_case p _ hparse (fun hx => hsc hx.1)
      · have hparse : ∃ es, updateTaskParse p = Except.error es := by
          unfold updateTaskParse
          rw [ht2, hd2, hc2]
          exact ⟨_, rfl⟩
        obtain ⟨es, hp2⟩ := hparse
        refine validateUpdate_error_case p es hp2 ?_
        rintro ⟨-, -, -, hx⟩
        rw [hc1] at hx
        exact absurd hx (by decide)
    · rcases completedFieldUpdate_cases p.completed with ⟨hc1, hc2⟩ | ⟨hc1, ec, hc2⟩
      · have hparse : ∃ es, updateTaskParse p = Except.error es := by
          unfold updateTaskParse
          rw [ht2, hd2, hc2]
          exact ⟨_, rfl⟩
        obtain ⟨es, hp2⟩ := hparse
        refine validateUpdate_error_case p es hp2 ?_
        rintro ⟨-, -, hx, -⟩
        rw [hd1] at hx
        exact absurd hx (by decide)
      · have hparse : ∃ es, updateTaskParse p = Except.error es := by
          unfold updateTaskParse
          rw [ht2, hd2, hc2]
          exact ⟨_, rfl⟩
        obtain ⟨es, hp2⟩ := hparse
        refine validateUpdate_error_case p es hp2 ?_
        rintro ⟨-, -, hx, -⟩
        rw [hd1] at hx
        exact absurd hx (by decide)
  · rcases descriptionField_cases p.description with ⟨hd1, hd2⟩ | ⟨hd1, ed, hd2⟩ <;>
      rcases completedFieldUpdate_cases p.completed with ⟨hc1, hc2⟩ | ⟨hc1, ec, hc2⟩
    all_goals
      have hparse : ∃ es, updateTaskParse p = Except.error es := by
        unfold updateTaskParse
        rw [ht2, hd2, hc2]
        exact ⟨_, rfl⟩
    all_goals
      obtain ⟨es, hp2⟩ := hparse
      refine validateUpdate_error_case p es hp2 ?_
      rintro ⟨-, hx, -, -⟩
      rw [ht1] at hx
      exact absurd hx (by decide)

/-- C10: the `data.description || null` coercion in `create` sends an
empty-string description to `null`, both in the returned task and in the
stored row, even though validation accepts `""` as a string. -/
theorem create_empty_description_coerced (db : DB) (title : String)
    (compl : Bool) (now : Nat) :
    ((create db ⟨title, some "", compl⟩ now).1.description = none)
    ∧ ((create db ⟨title, some "", compl⟩ now).2.rows
        = db.rows ++ [(create db ⟨title, some "", compl⟩ now).1]) := by
  constructor
  · simp [create, descriptionOrNull]
  · rfl

end Todo
